import Mathlib

/-!
Verification of the editor shell of `COx2/tried-bd-moduels-2025`
(`Source/PluginEditor.h`, `Source/PluginEditor.cpp`).

The editor shell is glue code: it owns a container component, a
`BinaryAssetImageLoader` built from the compiled-in `BinaryData` resource
table, and a `UILoader` (external `bd_ui_loader` library).  The shallow
embedding below translates the two source files line by line; the external
library operations (`loadUI`, `applyLayout`, the image provider's lookup)
are not present in the repository sources and are modelled from the spec,
each marked `Modelled from the spec:` in its doc comment.

Side effects are made explicit as event traces (`List Event`), so ordering
claims (container bounds updated before `applyLayout`, `loadUI` before
`setSize`, loader destroyed before container) become statements about
concrete lists.
-/

namespace BDEditor

/-- A rectangle, as JUCE `juce::Rectangle<int>`: position and extent. -/
structure Rect where
  x : Int
  y : Int
  w : Int
  h : Int
deriving DecidableEq, Repr

/-- Modelled from the spec: the parsed UI description is opaque; what the
spec fixes is that it carries a natural/preferred content size and layout
rules that map the container's current bounds to child-widget geometry
(§4.2: "recomputes child widget positions/sizes according to the layout
rules embedded in the description"). -/
structure UIDescription where
  naturalW : Int
  naturalH : Int
  layoutRules : Rect → List Rect

/-- The container component (`uiContainer` in `PluginEditor.h`): its bounds
and the geometry of the widget-tree children parented under it. -/
structure ContainerState where
  bounds : Rect
  childGeometry : List Rect

/-- A default-constructed `juce::Component`: zero bounds, no children. -/
def emptyContainer : ContainerState :=
  { bounds := ⟨0, 0, 0, 0⟩, childGeometry := [] }

/-- The `UILoader`'s description handle: empty (nothing loaded / load
failed) or holding one parsed description. -/
inductive LoaderState where
  | empty : LoaderState
  | loaded : UIDescription → LoaderState

/-- Modelled from the spec: `BinaryAssetImageLoader` is constructed from
the compiled-in `BinaryData` table — the named-resource list, its size,
and the two index/name-based accessors (§6: "(name, sizeInBytes) pairs,
an index-based byte-pointer accessor, and an index-based original-filename
accessor").  Byte buffers are lists of byte values. -/
structure BinaryAssetImageLoader where
  namedResourceList : List String
  namedResourceListSize : Nat
  getNamedResource : String → Option (List Nat)
  getNamedResourceOriginalFilename : String → Option String

/-- Modelled from the spec: the image provider answers byte-buffer queries
by logical name against the compiled-in table; a name absent from the
table yields "not found" (§4.1: "an unknown name yields not found; this
must not crash, only signal absence"). -/
def lookupImage (l : BinaryAssetImageLoader) (name : String) :
    Option (List Nat) :=
  if name ∈ l.namedResourceList then l.getNamedResource name else none

/-- Modelled from the spec: `applyLayout()` reads nothing beyond the
current container bounds and the loaded description, and recomputes the
child geometry from the description's layout rules (§4.2). With no
description loaded the container has no children to place. -/
def applyLayoutOn (l : LoaderState) (c : ContainerState) : ContainerState :=
  match l with
  | .empty => { c with childGeometry := [] }
  | .loaded d => { c with childGeometry := d.layoutRules c.bounds }

/-- The container as `loadUI` leaves it on success: the widget tree is
attached, the container is sized to the description's natural size, and
children are placed by the description's layout rules. -/
def builtContainer (d : UIDescription) : ContainerState :=
  { bounds := ⟨0, 0, d.naturalW, d.naturalH⟩
    childGeometry := d.layoutRules ⟨0, 0, d.naturalW, d.naturalH⟩ }

/-- Modelled from the spec: `loadUI(descriptionName)` resolves the name
against the description-resource namespace (given here as an environment
`env`, since that mechanism is external); on success the widget tree is
attached under the container and the container is sized to the loaded
content (§4.2); on failure (resolution failure or malformed description)
the call fails atomically: the container is left as it was (empty in this
usage) and a diagnosable error message is surfaced. -/
def loadUI (env : String → Except String UIDescription) (name : String)
    (c : ContainerState) : ContainerState × LoaderState × Option String :=
  match env name with
  | .error e => (c, .empty, some e)
  | .ok d => (builtContainer d, .loaded d, none)

/-- One observable side effect of the editor shell, in program order. -/
inductive Event where
  | ignoreUnusedProcessor : Event
  | addAndMakeVisible : Event
  | constructLoader : Event
  | loadUICall : String → Event
  | setResizableCall : Bool → Bool → Event
  | setResizeLimitsCall : Int → Int → Int → Int → Event
  | setSizeCall : Int → Int → Event
  | setContainerBounds : Rect → Event
  | applyLayoutCall : Event
  | fillAll : Nat → Event
  | destroyLoader : Event
  | destroyImageLoader : Event
  | destroyContainer : Event
deriving DecidableEq, Repr

/-- The editor shell's state: one field per data member declared in
`PluginEditor.h` (`processorRef`, `uiContainer`, `imageLoader`,
`uiLoader`), plus the window geometry and sizing configuration the
constructor sets through the `AudioProcessorEditor` base.  The processor
type is abstract — the shell only stores the reference.  `uiLoader` is a
`std::unique_ptr`, hence `Option`: dereferencing it while `none` is the
one crash the shell itself could exhibit. -/
structure EditorState (α : Type) where
  processor : α
  width : Int
  height : Int
  container : ContainerState
  imageLoader : BinaryAssetImageLoader
  uiLoader : Option LoaderState
  resizableX : Bool
  resizableY : Bool
  resizeLimits : Option (Int × Int × Int × Int)

/-- `getLocalBounds()`: the component's bounds with the origin at zero. -/
def localBounds {α : Type} (s : EditorState α) : Rect :=
  ⟨0, 0, s.width, s.height⟩

/-- The constructor, from `PluginEditor.cpp` lines 6–28:
member init (`processorRef(p)`, default `uiContainer`, `imageLoader(...)`),
then `ignoreUnused(processorRef)`, `addAndMakeVisible(uiContainer)`,
`make_unique<UILoader>(uiContainer, imageLoader)`,
`loadUI("my_plugin_ui.xml")`, `setResizable(true, true)`,
`setResizeLimits(400, 300, 1600, 1200)`,
`setSize(uiContainer.getWidth(), uiContainer.getHeight())`. -/
def constructEditor {α : Type} (p : α) (bd : BinaryAssetImageLoader)
    (env : String → Except String UIDescription) :
    EditorState α × List Event :=
  let loadResult := loadUI env "my_plugin_ui.xml" emptyContainer
  let c1 := loadResult.1
  let l1 := loadResult.2.1
  ({ processor := p
     width := c1.bounds.w
     height := c1.bounds.h
     container := c1
     imageLoader := bd
     uiLoader := some l1
     resizableX := true
     resizableY := true
     resizeLimits := some (400, 300, 1600, 1200) },
   [.ignoreUnusedProcessor, .addAndMakeVisible, .constructLoader,
    .loadUICall "my_plugin_ui.xml", .setResizableCall true true,
    .setResizeLimitsCall 400 300 1600 1200,
    .setSizeCall c1.bounds.w c1.bounds.h])

/-- `resized()`, from `PluginEditor.cpp` lines 40–45:
`uiContainer.setBounds(getLocalBounds()); uiLoader->applyLayout();`.
Dereferencing a null `uiLoader` would be undefined behaviour, hence the
`Option` result. -/
def resized {α : Type} (s : EditorState α) :
    Option (EditorState α × List Event) :=
  let c1 : ContainerState := { s.container with bounds := localBounds s }
  match s.uiLoader with
  | none => none
  | some l =>
      some ({ s with container := applyLayoutOn l c1 },
        [.setContainerBounds (localBounds s), .applyLayoutCall])

/-- `ResizableWindow::backgroundColourId` (JUCE colour id `0x1005700`). -/
def backgroundColourId : Nat := 0x1005700

/-- `paint(g)`, from `PluginEditor.cpp` lines 35–38:
`g.fillAll(getLookAndFeel().findColour(ResizableWindow::backgroundColourId))`.
The look-and-feel is external state, passed as the colour map `laf`. -/
def paint {α : Type} (s : EditorState α) (laf : Nat → Nat) :
    EditorState α × List Event :=
  (s, [.fillAll (laf backgroundColourId)])

/-- The destructor, `PluginEditor.cpp` lines 30–32: its body is empty, so
its observable effect is C++ member destruction, in reverse order of
declaration in `PluginEditor.h` (`processorRef`, `uiContainer`,
`imageLoader`, `uiLoader`): first `uiLoader`, then `imageLoader`, then
`uiContainer`.  `processorRef` is a reference; destroying it destroys
nothing. -/
def destructorTrace : List Event :=
  [.destroyLoader, .destroyImageLoader, .destroyContainer]

/-- A host-driven callback while the editor is Active: a redraw (with the
host's current look-and-feel), or a resize (the host updates the window
size, then the framework invokes `resized()`). -/
inductive HostCallback where
  | paintCb : (Nat → Nat) → HostCallback
  | resizedCb : Int → Int → HostCallback

/-- One host callback applied to the editor state; `none` is a crash. -/
def step {α : Type} (s : EditorState α) :
    HostCallback → Option (EditorState α)
  | .paintCb laf => some (paint s laf).1
  | .resizedCb w h =>
      (resized { s with width := w, height := h }).map (·.1)

/-- A whole sequence of host callbacks, stopping at the first crash. -/
def runCallbacks {α : Type} (s : EditorState α) :
    List HostCallback → Option (EditorState α)
  | [] => some s
  | cb :: rest =>
      match step s cb with
      | none => none
      | some s' => runCallbacks s' rest

/-- A sample parsed description, used to evaluate the model concretely:
natural size 800×600, two children splitting the container vertically. -/
def sampleDesc : UIDescription :=
  { naturalW := 800
    naturalH := 600
    layoutRules := fun r =>
      [⟨0, 0, r.w / 2, r.h⟩, ⟨r.w / 2, 0, r.w - r.w / 2, r.h⟩] }

/-- A sample compiled-in resource table with two named image assets. -/
def sampleTable : BinaryAssetImageLoader :=
  { namedResourceList := ["knob_png", "background_png"]
    namedResourceListSize := 2
    getNamedResource := fun n =>
      if n = "knob_png" then some [1, 2, 3]
      else if n = "background_png" then some [4, 5] else none
    getNamedResourceOriginalFilename := fun n =>
      if n = "knob_png" then some "knob.png"
      else if n = "background_png" then some "background.png" else none }

/-- A sample description-resolution environment in which every name
resolves to `sampleDesc`. -/
def sampleEnv : String → Except String UIDescription :=
  fun _ => .ok sampleDesc

/-- An editor constructed with the sample collaborators. -/
def sampleEditor : EditorState Nat :=
  (constructEditor 37 sampleTable sampleEnv).1

/-- The container as it stands when `applyLayout()` runs inside
`resized()`: its bounds have already been set to the shell's local
bounds. -/
def freshlyBounded {α : Type} (s : EditorState α) : ContainerState :=
  { s.container with bounds := localBounds s }

/-- The editor state `resized()` produces when the loader `l` is present:
`applyLayout` is applied to the freshly-bounded container, never to the
stale one. -/
def resizedExpected {α : Type} (l : LoaderState) (s : EditorState α) :
    EditorState α :=
  { s with container := applyLayoutOn l (freshlyBounded s) }

/-- C1: `resized()` first sets the container's bounds to the shell's
current local bounds and only then calls `applyLayout()`: the loader's
layout step receives the freshly-bounded container (whose bounds equal
`localBounds s`), and in the emitted trace the bounds update (index 0)
strictly precedes the `applyLayout` call (index 1). -/
theorem resized_updates_bounds_before_applyLayout {α : Type}
    (s : EditorState α) (l : LoaderState) (h : s.uiLoader = some l) :
    (freshlyBounded s).bounds = localBounds s ∧
    ∃ tr, resized s = some (resizedExpected l s, tr) ∧
      tr.get? 0 = some (Event.setContainerBounds (localBounds s)) ∧
      tr.get? 1 = some Event.applyLayoutCall ∧
      tr.length = 2 := by
  refine ⟨rfl,
    [Event.setContainerBounds (localBounds s), Event.applyLayoutCall],
    ?_, rfl, rfl, rfl⟩
  simp only [resized, resizedExpected, freshlyBounded, h]

/-- Witness for C1 at the sample editor. -/
theorem resized_updates_bounds_before_applyLayout_witness :
    (freshlyBounded sampleEditor).bounds = localBounds sampleEditor ∧
    ∃ tr, resized sampleEditor =
        some (resizedExpected (LoaderState.loaded sampleDesc) sampleEditor,
          tr) ∧
      tr.get? 0 = some (Event.setContainerBounds (localBounds sampleEditor)) ∧
      tr.get? 1 = some Event.applyLayoutCall ∧
      tr.length = 2 :=
  resized_updates_bounds_before_applyLayout sampleEditor
    (LoaderState.loaded sampleDesc) rfl

/-- C2: after construction the editor is resizable on both axes and its
resize limits are exactly min 400×300, max 1600×1200. -/
theorem editor_resizable_with_limits {α : Type} (p : α)
    (bd : BinaryAssetImageLoader)
    (env : String → Except String UIDescription) :
    (constructEditor p bd env).1.resizableX = true ∧
    (constructEditor p bd env).1.resizableY = true ∧
    (constructEditor p bd env).1.resizeLimits = some (400, 300, 1600, 1200) :=
  ⟨rfl, rfl, rfl⟩

/-- C3: the editor's initial size equals the container's width and height
as `loadUI` left them, and in the constructor's trace the `loadUI` call
(index 3) strictly precedes the `setSize` call (index 6). -/
theorem initial_size_is_loaded_container_size {α : Type} (p : α)
    (bd : BinaryAssetImageLoader)
    (env : String → Except String UIDescription) :
    (constructEditor p bd env).1.width =
      (constructEditor p bd env).1.container.bounds.w ∧
    (constructEditor p bd env).1.height =
      (constructEditor p bd env).1.container.bounds.h ∧
    (constructEditor p bd env).1.container =
      (loadUI env "my_plugin_ui.xml" emptyContainer).1 ∧
    ∃ i j, i < j ∧
      (constructEditor p bd env).2.get? i =
        some (Event.loadUICall "my_plugin_ui.xml") ∧
      (constructEditor p bd env).2.get? j =
        some (Event.setSizeCall (constructEditor p bd env).1.width
          (constructEditor p bd env).1.height) :=
  ⟨rfl, rfl, rfl, 3, 6, by norm_num, rfl, rfl⟩

/-- C4: `applyLayout()` leaves the container bounds untouched, so two
consecutive calls see the same bounds, and it is idempotent: the second
call reproduces exactly the geometry the first one computed. -/
theorem applyLayout_idempotent (l : LoaderState) (c : ContainerState) :
    (applyLayoutOn l c).bounds = c.bounds ∧
    applyLayoutOn l (applyLayoutOn l c) = applyLayoutOn l c := by
  cases l <;> exact ⟨rfl, rfl⟩

/-- C5: `loadUI` is atomic for every environment and name: either
resolution fails and the container is returned exactly as it was (empty
in this usage) with the loader empty and a diagnosable error surfaced, or
it succeeds and the container is fully built from the resolved
description with no error. -/
theorem loadUI_atomic (env : String → Except String UIDescription)
    (name : String) :
    (∃ e, env name = .error e ∧
      (loadUI env name emptyContainer).1 = emptyContainer ∧
      (loadUI env name emptyContainer).2.1 = LoaderState.empty ∧
      (loadUI env name emptyContainer).2.2 = some e) ∨
    (∃ d, env name = .ok d ∧
      (loadUI env name emptyContainer).1 = builtContainer d ∧
      (loadUI env name emptyContainer).2.2 = none) := by
  cases h : env name with
  | error e =>
      exact .inl ⟨e, rfl, by simp [loadUI, h], by simp [loadUI, h],
        by simp [loadUI, h]⟩
  | ok d =>
      exact .inr ⟨d, rfl, by simp [loadUI, h], by simp [loadUI, h]⟩

/-- C6: for every name absent from the compiled-in resource table, the
image provider's lookup returns a well-defined `none` ("not found"); the
lookup is a total function, so there is no crash path. -/
theorem lookupImage_absent_is_none (l : BinaryAssetImageLoader)
    (name : String) (h : name ∉ l.namedResourceList) :
    lookupImage l name = none := by
  simp [lookupImage, h]

/-- Witness for C6: a name missing from the sample table yields `none`. -/
theorem lookupImage_absent_is_none_witness :
    "missing_png" ∉ sampleTable.namedResourceList ∧
    lookupImage sampleTable "missing_png" = none :=
  ⟨by decide,
   lookupImage_absent_is_none sampleTable "missing_png" (by decide)⟩

/-- C7: `paint` fills the surface with the look-and-feel's background
colour for `ResizableWindow::backgroundColourId` and does nothing else:
its trace is that single fill, it is total (no failure mode), and the
whole editor state — container, loader, image provider, processor — is
returned unchanged. -/
theorem paint_fills_background_only {α : Type} (s : EditorState α)
    (laf : Nat → Nat) :
    paint s laf = (s, [Event.fillAll (laf backgroundColourId)]) ∧
    (paint s laf).1.container = s.container ∧
    (paint s laf).1.uiLoader = s.uiLoader ∧
    (paint s laf).1.imageLoader = s.imageLoader ∧
    (paint s laf).1.processor = s.processor :=
  ⟨rfl, rfl, rfl, rfl, rfl⟩

/-- `resized` keeps the loader pointer itself untouched. -/
theorem resized_preserves_uiLoader {α : Type} (s : EditorState α)
    (r : EditorState α × List Event) (h : resized s = some r) :
    r.1.uiLoader = s.uiLoader := by
  unfold resized at h
  cases hl : s.uiLoader with
  | none => rw [hl] at h; exact absurd h (by simp)
  | some l =>
      rw [hl] at h
      simp only [Option.some.injEq] at h
      rw [← h]

/-- One host callback from a state whose loader is present succeeds and
leaves the loader present. -/
theorem step_safe_of_loader {α : Type} (s : EditorState α)
    (cb : HostCallback) (h : s.uiLoader.isSome) :
    ∃ s', step s cb = some s' ∧ s'.uiLoader.isSome := by
  cases cb with
  | paintCb laf => exact ⟨s, rfl, h⟩
  | resizedCb w hh =>
      cases hl : s.uiLoader with
      | none => rw [hl] at h; exact absurd h (by simp)
      | some l =>
          refine ⟨resizedExpected l { s with width := w, height := hh }, ?_, ?_⟩
          · show (resized { s with width := w, height := hh }).map (·.1) = _
            simp only [resized, resizedExpected, freshlyBounded]
            rw [show ({ s with width := w, height := hh } :
              EditorState α).uiLoader = some l from hl]
            rfl
          · show ({ s with width := w, height := hh } :
              EditorState α).uiLoader.isSome
            rw [show ({ s with width := w, height := hh } :
              EditorState α).uiLoader = some l from hl]
            rfl

/-- A whole callback sequence from a state whose loader is present
succeeds. -/
theorem runCallbacks_isSome_of_loader {α : Type} (cbs : List HostCallback)
    (s : EditorState α) (h : s.uiLoader.isSome) :
    (runCallbacks s cbs).isSome := by
  induction cbs generalizing s with
  | nil => rfl
  | cons cb rest ih =>
      obtain ⟨s', hstep, hl⟩ := step_safe_of_loader s cb h
      show (match step s cb with
        | none => none
        | some t => runCallbacks t rest).isSome
      rw [hstep]
      exact ih s' hl

/-- C8: from any editor the constructor produces, every sequence of host
callbacks — paints and resizes in any order, any number of times,
including a paint before any resize has ever happened (the initial size
may even be zero) — runs to completion: no crash. -/
theorem callbacks_safe_while_active {α : Type} (p : α)
    (bd : BinaryAssetImageLoader)
    (env : String → Except String UIDescription) (cbs : List HostCallback) :
    (runCallbacks (constructEditor p bd env).1 cbs).isSome :=
  runCallbacks_isSome_of_loader cbs (constructEditor p bd env).1 rfl

/-- C9: in the destructor's effect trace the loader is destroyed strictly
before the container (reverse member-declaration order), so the container
never outlives its visually-parented widget tree's owner being released
first. -/
theorem loader_destroyed_before_container :
    Event.destroyLoader ∈ destructorTrace ∧
    Event.destroyContainer ∈ destructorTrace ∧
    destructorTrace.indexOf Event.destroyLoader <
      destructorTrace.indexOf Event.destroyContainer := by
  decide

/-- `step` never changes the stored processor reference. -/
theorem step_preserves_processor {α : Type} (s : EditorState α)
    (cb : HostCallback) (s' : EditorState α) (h : step s cb = some s') :
    s'.processor = s.processor := by
  cases cb with
  | paintCb laf =>
      simp only [step, paint] at h
      cases h
      rfl
  | resizedCb w hh =>
      simp only [step, resized] at h
      cases hl : s.uiLoader with
      | none => rw [hl] at h; simp at h
      | some l =>
          rw [hl] at h
          injection h with h2
          cases h2
          rfl

/-- `runCallbacks` never changes the stored processor reference. -/
theorem runCallbacks_preserves_processor {α : Type}
    (cbs : List HostCallback) (s : EditorState α) :
    (runCallbacks s cbs).map (fun t => t.processor) =
      (runCallbacks s cbs).map (fun _ => s.processor) := by
  induction cbs generalizing s with
  | nil => rfl
  | cons cb rest ih =>
      cases hstep : step s cb with
      | none => simp [runCallbacks, hstep]
      | some s' =>
          have hp := step_preserves_processor s cb s' hstep
          simp only [runCallbacks, hstep, ih s', hp]

/-- C10: the processor reference is only stored: the constructor records
it unchanged, no sequence of host callbacks (paints and resizes) ever
alters it, and the destructor's trace consists solely of destroying the
three owned members — loader, image provider, container — never the
referenced processor. -/
theorem processor_never_touched {α : Type} (p : α)
    (bd : BinaryAssetImageLoader)
    (env : String → Except String UIDescription)
    (cbs : List HostCallback) :
    (constructEditor p bd env).1.processor = p ∧
    (runCallbacks (constructEditor p bd env).1 cbs).map
        (fun t => t.processor) =
      (runCallbacks (constructEditor p bd env).1 cbs).map (fun _ => p) ∧
    destructorTrace =
      [Event.destroyLoader, Event.destroyImageLoader,
       Event.destroyContainer] :=
  ⟨rfl, runCallbacks_preserves_processor cbs (constructEditor p bd env).1,
   rfl⟩

end BDEditor
